import Mathlib

/-!
A shallow embedding of the job-ingestion pipeline of `src/hooks/useJobs.ts`:
the row validator/normalizer `validateAndParseJob`, its date helper
`isValidDate`, and the orchestration in the `useJobs` hook.

Modelling conventions:
* A spreadsheet cell (a field of the `RawJobData` row object) is a JavaScript
  value that is a string, a number, or absent (`undefined`, as produced by
  `sheet_to_json` for empty cells).  Numeric cells are modelled as integers.
* JavaScript truthiness on cells: `undefined`, the empty string and the
  number 0 are falsy.
* `x.toString()` on an absent value throws a TypeError; this is modelled in
  the `Except Unit` monad.  `x?.toString()` yields `undefined` instead, and
  `x?.toString() || d` is the defaulting idiom of the source.
* `new Date().toISOString().split('T')[0]` — the current date in YYYY-MM-DD
  form — is passed in as the parameter `today`.
* `new Date(s)` parsing is modelled by `jsDateParses`, the date-only forms of
  the ECMA-262 Date Time String Format (`YYYY`, `YYYY-MM`, `YYYY-MM-DD` with
  range checks); implementation-defined formats are not modelled.
-/

/-- A JavaScript value held by one spreadsheet cell: a string, a number
(modelled as an integer), or absent (`undefined`). -/
inductive Cell where
  | str (s : String)
  | num (n : Int)
  | absent
deriving DecidableEq, Repr

/-- The `RawJobData` interface of `useJobs.ts`: one decoded spreadsheet row,
keyed by the capitalized header names.  Any field may be absent at runtime
(`sheet_to_json` omits empty cells), which the `Cell` type records. -/
structure RawJobData where
  ID : Cell
  Title : Cell
  Company : Cell
  Location : Cell
  «Type» : Cell
  Description : Cell
  Requirements : Cell
  SalaryMin : Cell
  SalaryMax : Cell
  SalaryCurrency : Cell
  PostedDate : Cell
  ApplicationUrl : Cell
  CompanyLogo : Cell
deriving DecidableEq, Repr

/-- The nested `salary` object of the `Job` record. -/
structure Salary where
  min : Int
  max : Int
  currency : String
deriving DecidableEq, Repr

/-- The validated `Job` record of `types/job.ts` as used by `useJobs.ts`.
The `type` field is a plain string: the source casts the coerced text to the
enum type without validating it, so arbitrary text can flow through. -/
structure Job where
  id : String
  title : String
  company : String
  location : String
  type : String
  description : String
  requirements : List String
  salary : Salary
  postedDate : String
  applicationUrl : String
  companyLogo : String
deriving DecidableEq, Repr

/-- JavaScript truthiness of a cell value: `undefined`, `""` and `0` are
falsy, everything else the validator can see is truthy. -/
def truthy : Cell → Bool
  | .absent => false
  | .str s => s != ""
  | .num n => n != 0

/-- String coercion of a present cell (`x.toString()`); the `.absent` case is
never reached by the embedding (`cellToStringThrow` guards it) and is mapped
to `""`. -/
def cellToString : Cell → String
  | .str s => s
  | .num n => toString n
  | .absent => ""

/-- `x.toString()` as the source calls it: throws a TypeError when the value
is absent (`undefined`), modelled as `Except.error ()`. -/
def cellToStringThrow : Cell → Except Unit String
  | .absent => .error ()
  | c => .ok (cellToString c)

/-- The source idiom `x?.toString() || dflt`: an absent cell or an empty
coerced string falls back to the default, any other text passes verbatim. -/
def jsOrDefault (c : Cell) (dflt : String) : String :=
  match c with
  | .absent => dflt
  | c => if cellToString c = "" then dflt else cellToString c

/-- Accumulate the value of a leading run of decimal digits, stopping at the
first non-digit (the prefix-parsing behaviour of `parseInt`). -/
def leadingDigits (acc : Nat) : List Char → Nat
  | [] => acc
  | c :: cs => if c.isDigit then leadingDigits (10 * acc + (c.toNat - 48)) cs else acc

/-- `parseInt(s, 10)`: skip leading whitespace, read an optional sign, then
the longest prefix of decimal digits; `none` (JavaScript `NaN`) when no digit
follows. -/
def parseIntBase10 (s : String) : Option Int :=
  match s.toList.dropWhile Char.isWhitespace with
  | '-' :: c :: cs =>
      if c.isDigit then some (-(leadingDigits (c.toNat - 48) cs : Int)) else none
  | '+' :: c :: cs =>
      if c.isDigit then some ((leadingDigits (c.toNat - 48) cs : Int)) else none
  | c :: cs =>
      if c.isDigit then some ((leadingDigits (c.toNat - 48) cs : Int)) else none
  | [] => none

/-- The source idiom `parseInt(s, 10) || 0`: `NaN` (and `±0`) become `0`. -/
def parseIntOrZero (s : String) : Int :=
  (parseIntBase10 s).getD 0

/-- Split a character list at every occurrence of `sep`, keeping empty
segments — the semantics of JavaScript `String.prototype.split` with a
one-character separator (structurally recursive, unlike `String.splitOn`,
so that concrete runs reduce). -/
def splitOnChar (sep : Char) : List Char → List (List Char)
  | [] => [[]]
  | c :: cs =>
    match splitOnChar sep cs with
    | [] => [[]]
    | seg :: rest => if c = sep then [] :: seg :: rest else (c :: seg) :: rest

/-- JavaScript `s.split(sep)` for a one-character separator. -/
def jsSplit (sep : Char) (s : String) : List String :=
  (splitOnChar sep s.toList).map (fun l => ⟨l⟩)

/-- True exactly when the string is made of decimal digits only and is
non-empty. -/
def allDigits (s : String) : Bool :=
  s.length > 0 && s.toList.all Char.isDigit

/-- Value of a digit string read in base 10. -/
def natOfDigits (s : String) : Nat :=
  s.toList.foldl (fun a c => 10 * a + (c.toNat - 48)) 0

/-- Days in a month of the proleptic Gregorian calendar, as the ECMA-262 date
format validity rules use. -/
def daysInMonth (y m : Nat) : Nat :=
  if m = 2 then
    if y % 4 = 0 && (y % 100 != 0 || y % 400 = 0) then 29 else 28
  else if m = 4 || m = 6 || m = 9 || m = 11 then 30
  else 31

/-- Model of `new Date(s)` producing a valid date: the date-only forms
`YYYY`, `YYYY-MM`, `YYYY-MM-DD` of the ECMA-262 Date Time String Format,
with month and day range checks.  Implementation-defined formats accepted by
some engines are outside the model. -/
def jsDateParses (s : String) : Bool :=
  match jsSplit '-' s with
  | [y] => y.length = 4 && allDigits y
  | [y, m] =>
      y.length = 4 && allDigits y && m.length = 2 && allDigits m &&
      1 ≤ natOfDigits m && natOfDigits m ≤ 12
  | [y, m, d] =>
      y.length = 4 && allDigits y && m.length = 2 && allDigits m &&
      1 ≤ natOfDigits m && natOfDigits m ≤ 12 &&
      d.length = 2 && allDigits d &&
      1 ≤ natOfDigits d && natOfDigits d ≤ daysInMonth (natOfDigits y) (natOfDigits m)
  | _ => false

/-- The `isValidDate(row.PostedDate?.toString())` test of the source: an
absent cell gives `undefined`, and `new Date(undefined)` is an invalid date;
a present cell is coerced to text and parsed. -/
def postedDateValid (c : Cell) : Bool :=
  match c with
  | .absent => false
  | c => jsDateParses (cellToString c)

/-- The body of `validateAndParseJob` before its `catch`: the required-field
truthiness check returns the rejection `none`; each bare `.toString()` may
throw (propagated by the `Except` monad); otherwise the `Job` literal is
built field by field exactly as in the source.  `today` stands for
`new Date().toISOString().split('T')[0]`. -/
def validateAndParseJobBody (today : String) (row : RawJobData) :
    Except Unit (Option Job) := do
  if !truthy row.ID || !truthy row.Title || !truthy row.Company then
    return none
  let postedDate :=
    if postedDateValid row.PostedDate then cellToString row.PostedDate else today
  let id ← cellToStringThrow row.ID
  let title ← cellToStringThrow row.Title
  let company ← cellToStringThrow row.Company
  let location ← cellToStringThrow row.Location
  let tpe := jsOrDefault row.«Type» "FULL_TIME"
  let description ← cellToStringThrow row.Description
  let reqText ← cellToStringThrow row.Requirements
  let salMin ← cellToStringThrow row.SalaryMin
  let salMax ← cellToStringThrow row.SalaryMax
  let currency := jsOrDefault row.SalaryCurrency "USD"
  let applicationUrl := jsOrDefault row.ApplicationUrl "#"
  let companyLogo := jsOrDefault row.CompanyLogo
    "https://images.unsplash.com/photo-1560179707-f14e90ef3623?w=100&h=100&fit=crop"
  return some {
    id := id, title := title, company := company, location := location,
    type := tpe, description := description,
    requirements := (jsSplit '\n' reqText).filter (fun s => s != ""),
    salary := { min := parseIntOrZero salMin, max := parseIntOrZero salMax,
                currency := currency },
    postedDate := postedDate, applicationUrl := applicationUrl,
    companyLogo := companyLogo }

/-- `validateAndParseJob`: the body wrapped in the `try`/`catch` of the
source — any exception is caught and converted to the rejection `none`. -/
def validateAndParseJob (today : String) (row : RawJobData) : Option Job :=
  match validateAndParseJobBody today row with
  | .error _ => none
  | .ok o => o

/-- The `Job` literal of lines 42–58 of the source, written directly over the
coerced cell texts: the job `validateAndParseJob` returns whenever no check
fails and no coercion throws. -/
def mkJob (today : String) (row : RawJobData) : Job :=
  { id := cellToString row.ID, title := cellToString row.Title,
    company := cellToString row.Company, location := cellToString row.Location,
    type := jsOrDefault row.«Type» "FULL_TIME",
    description := cellToString row.Description,
    requirements :=
      (jsSplit '\n' (cellToString row.Requirements)).filter (fun s => s != ""),
    salary := { min := parseIntOrZero (cellToString row.SalaryMin),
                max := parseIntOrZero (cellToString row.SalaryMax),
                currency := jsOrDefault row.SalaryCurrency "USD" },
    postedDate :=
      if postedDateValid row.PostedDate then cellToString row.PostedDate else today,
    applicationUrl := jsOrDefault row.ApplicationUrl "#",
    companyLogo := jsOrDefault row.CompanyLogo
      "https://images.unsplash.com/photo-1560179707-f14e90ef3623?w=100&h=100&fit=crop" }

/-- Outcome of the fetch-and-decode step of `useJobs`: either the `read` call
fails (or the fetch before it), or it yields a workbook, modelled as its
ordered list of sheets, each sheet already converted to its rows. -/
inductive FetchOutcome where
  | decodeFailed
  | decoded (sheets : List (List RawJobData))
deriving DecidableEq, Repr

/-- The batch-level failures the `useJobs` hook surfaces as an error message:
decode failure, `Excel file is empty` (zero sheets), and
`No valid jobs found in the file` (zero survivors). -/
inductive JobsError where
  | decodeError
  | emptyWorkbook
  | noValidRows
deriving DecidableEq, Repr

/-- `workbook.Sheets[workbook.SheetNames[0]]` followed by `sheet_to_json`:
the rows of the first sheet (only reached when a sheet exists). -/
def firstSheetRows : List (List RawJobData) → List RawJobData
  | [] => []
  | s :: _ => s

/-- The ingestion orchestration of `useJobs` (lines 80–99): guard against an
empty workbook, map the validator over the first sheet's rows filtering out
rejections, and fail the batch when nothing survives. -/
def useJobsIngest (today : String) : FetchOutcome → Except JobsError (List Job)
  | .decodeFailed => .error .decodeError
  | .decoded sheets =>
      if sheets.length = 0 then .error .emptyWorkbook
      else
        let parsedJobs := (firstSheetRows sheets).filterMap (validateAndParseJob today)
        if parsedJobs.length = 0 then .error .noValidRows
        else .ok parsedJobs

/-- Shape test for the spec's `YYYY-MM-DD` ISO date form: ten characters,
four digits, a hyphen, two digits, a hyphen, two digits. -/
def isYYYYMMDD (s : String) : Bool :=
  match s.toList with
  | [y1, y2, y3, y4, h1, m1, m2, h2, d1, d2] =>
      y1.isDigit && y2.isDigit && y3.isDigit && y4.isDigit && h1 = '-' &&
      m1.isDigit && m2.isDigit && h2 = '-' && d1.isDigit && d2.isDigit
  | _ => false

/-- The claim's reading of a required field being missing or empty: the cell
is absent, or its text coercion is the empty string. -/
def missingOrEmptyText (c : Cell) : Bool :=
  match c with
  | .absent => true
  | c => cellToString c == ""

theorem cellToStringThrow_ok (c : Cell) (h : c ≠ .absent) :
    cellToStringThrow c = .ok (cellToString c) := by
  cases c with
  | absent => exact absurd rfl h
  | str s => rfl
  | num n => rfl

theorem truthy_ne_absent (c : Cell) (h : truthy c = true) : c ≠ .absent := by
  intro hc; subst hc; simp [truthy] at h

theorem cellToStringThrow_absent : cellToStringThrow Cell.absent = .error () := rfl

theorem validateAndParseJob_none_of_check (today : String) (row : RawJobData)
    (h : truthy row.ID = false ∨ truthy row.Title = false ∨ truthy row.Company = false) :
    validateAndParseJob today row = none := by
  unfold validateAndParseJob validateAndParseJobBody
  rcases h with h | h | h <;> simp [h, pure, Except.pure]

theorem validateAndParseJob_eq_mkJob (today : String) (row : RawJobData)
    (hID : truthy row.ID = true) (hTitle : truthy row.Title = true)
    (hCompany : truthy row.Company = true)
    (hLoc : row.Location ≠ .absent) (hDesc : row.Description ≠ .absent)
    (hReq : row.Requirements ≠ .absent) (hMin : row.SalaryMin ≠ .absent)
    (hMax : row.SalaryMax ≠ .absent) :
    validateAndParseJob today row = some (mkJob today row) := by
  unfold validateAndParseJob validateAndParseJobBody
  simp [hID, hTitle, hCompany,
    cellToStringThrow_ok _ (truthy_ne_absent _ hID),
    cellToStringThrow_ok _ (truthy_ne_absent _ hTitle),
    cellToStringThrow_ok _ (truthy_ne_absent _ hCompany),
    cellToStringThrow_ok _ hLoc, cellToStringThrow_ok _ hDesc,
    cellToStringThrow_ok _ hReq, cellToStringThrow_ok _ hMin,
    cellToStringThrow_ok _ hMax, mkJob, Bind.bind, Except.bind, pure, Except.pure]

theorem validateAndParseJob_none_of_throwing (today : String) (row : RawJobData)
    (hID : truthy row.ID = true) (hTitle : truthy row.Title = true)
    (hCompany : truthy row.Company = true)
    (habs : row.Location = .absent ∨ row.Description = .absent ∨
      row.Requirements = .absent ∨ row.SalaryMin = .absent ∨ row.SalaryMax = .absent) :
    validateAndParseJob today row = none := by
  unfold validateAndParseJob validateAndParseJobBody
  by_cases hLoc : row.Location = Cell.absent
  · simp [hID, hTitle, hCompany, hLoc,
      cellToStringThrow_ok _ (truthy_ne_absent _ hID),
      cellToStringThrow_ok _ (truthy_ne_absent _ hTitle),
      cellToStringThrow_ok _ (truthy_ne_absent _ hCompany),
      cellToStringThrow_absent, Bind.bind, Except.bind, pure, Except.pure]
  by_cases hDesc : row.Description = Cell.absent
  · simp [hID, hTitle, hCompany, hDesc,
      cellToStringThrow_ok _ (truthy_ne_absent _ hID),
      cellToStringThrow_ok _ (truthy_ne_absent _ hTitle),
      cellToStringThrow_ok _ (truthy_ne_absent _ hCompany),
      cellToStringThrow_ok _ hLoc,
      cellToStringThrow_absent, Bind.bind, Except.bind, pure, Except.pure]
  by_cases hReq : row.Requirements = Cell.absent
  · simp [hID, hTitle, hCompany, hReq,
      cellToStringThrow_ok _ (truthy_ne_absent _ hID),
      cellToStringThrow_ok _ (truthy_ne_absent _ hTitle),
      cellToStringThrow_ok _ (truthy_ne_absent _ hCompany),
      cellToStringThrow_ok _ hLoc, cellToStringThrow_ok _ hDesc,
      cellToStringThrow_absent, Bind.bind, Except.bind, pure, Except.pure]
  by_cases hMin : row.SalaryMin = Cell.absent
  · simp [hID, hTitle, hCompany, hMin,
      cellToStringThrow_ok _ (truthy_ne_absent _ hID),
      cellToStringThrow_ok _ (truthy_ne_absent _ hTitle),
      cellToStringThrow_ok _ (truthy_ne_absent _ hCompany),
      cellToStringThrow_ok _ hLoc, cellToStringThrow_ok _ hDesc,
      cellToStringThrow_ok _ hReq,
      cellToStringThrow_absent, Bind.bind, Except.bind, pure, Except.pure]
  by_cases hMax : row.SalaryMax = Cell.absent
  · simp [hID, hTitle, hCompany, hMax,
      cellToStringThrow_ok _ (truthy_ne_absent _ hID),
      cellToStringThrow_ok _ (truthy_ne_absent _ hTitle),
      cellToStringThrow_ok _ (truthy_ne_absent _ hCompany),
      cellToStringThrow_ok _ hLoc, cellToStringThrow_ok _ hDesc,
      cellToStringThrow_ok _ hReq, cellToStringThrow_ok _ hMin,
      cellToStringThrow_absent, Bind.bind, Except.bind, pure, Except.pure]
  · rcases habs with h | h | h | h | h <;> simp_all

theorem validateAndParseJob_some_inv (today : String) (row : RawJobData) (job : Job)
    (h : validateAndParseJob today row = some job) :
    truthy row.ID = true ∧ truthy row.Title = true ∧ truthy row.Company = true ∧
    row.Location ≠ .absent ∧ row.Description ≠ .absent ∧ row.Requirements ≠ .absent ∧
    row.SalaryMin ≠ .absent ∧ row.SalaryMax ≠ .absent ∧ job = mkJob today row := by
  by_cases hID : truthy row.ID = true
  case neg =>
    rw [validateAndParseJob_none_of_check today row (Or.inl (by simpa using hID))] at h
    exact Option.noConfusion h
  by_cases hTitle : truthy row.Title = true
  case neg =>
    rw [validateAndParseJob_none_of_check today row
      (Or.inr (Or.inl (by simpa using hTitle)))] at h
    exact Option.noConfusion h
  by_cases hCompany : truthy row.Company = true
  case neg =>
    rw [validateAndParseJob_none_of_check today row
      (Or.inr (Or.inr (by simpa using hCompany)))] at h
    exact Option.noConfusion h
  by_cases hLoc : row.Location = Cell.absent
  case pos =>
    rw [validateAndParseJob_none_of_throwing today row hID hTitle hCompany (Or.inl hLoc)] at h
    exact Option.noConfusion h
  by_cases hDesc : row.Description = Cell.absent
  case pos =>
    rw [validateAndParseJob_none_of_throwing today row hID hTitle hCompany
      (Or.inr (Or.inl hDesc))] at h
    exact Option.noConfusion h
  by_cases hReq : row.Requirements = Cell.absent
  case pos =>
    rw [validateAndParseJob_none_of_throwing today row hID hTitle hCompany
      (Or.inr (Or.inr (Or.inl hReq)))] at h
    exact Option.noConfusion h
  by_cases hMin : row.SalaryMin = Cell.absent
  case pos =>
    rw [validateAndParseJob_none_of_throwing today row hID hTitle hCompany
      (Or.inr (Or.inr (Or.inr (Or.inl hMin))))] at h
    exact Option.noConfusion h
  by_cases hMax : row.SalaryMax = Cell.absent
  case pos =>
    rw [validateAndParseJob_none_of_throwing today row hID hTitle hCompany
      (Or.inr (Or.inr (Or.inr (Or.inr hMax))))] at h
    exact Option.noConfusion h
  have heq := validateAndParseJob_eq_mkJob today row hID hTitle hCompany hLoc hDesc hReq hMin hMax
  rw [heq] at h
  exact ⟨hID, hTitle, hCompany, hLoc, hDesc, hReq, hMin, hMax, (Option.some_inj.mp h).symm⟩

theorem toDigitsCore_cons_ne_nil (b : Nat) (f n : Nat) (c : Char) (tl : List Char) :
    Nat.toDigitsCore b f n (c :: tl) ≠ [] := by
  induction f generalizing n c tl with
  | zero => simp [Nat.toDigitsCore]
  | succ f ih =>
    simp only [Nat.toDigitsCore]
    split
    · simp
    · exact ih (n / b) _ _

theorem natRepr_ne_empty (n : Nat) : Nat.repr n ≠ "" := by
  have hne : Nat.toDigits 10 n ≠ [] := by
    simp only [Nat.toDigits, Nat.toDigitsCore]
    split
    · simp
    · exact toDigitsCore_cons_ne_nil 10 n (n / 10) _ []
  simp only [Nat.repr]
  intro he
  apply hne
  have := congrArg String.data he
  simpa [List.asString] using this

theorem intToString_ne_empty (n : Int) : toString n ≠ "" := by
  show Int.repr n ≠ ""
  cases n with
  | ofNat m => exact natRepr_ne_empty m
  | negSucc m =>
    intro he
    have := congrArg String.data he
    simp [Int.repr, String.data_append] at this

theorem missingOrEmptyText_not_truthy (c : Cell) (h : missingOrEmptyText c = true) :
    truthy c = false := by
  cases c with
  | absent => rfl
  | str s =>
    simp [missingOrEmptyText, cellToString] at h
    simp [truthy, h]
  | num n =>
    simp [missingOrEmptyText, cellToString] at h
    exact absurd h (intToString_ne_empty n)

/-- A fully-populated valid sample row, used by witnesses. -/
def sampleRow : RawJobData :=
  { ID := .str "1", Title := .str "Engineer", Company := .str "Acme",
    Location := .str "Remote", «Type» := .str "FULL_TIME",
    Description := .str "Build things", Requirements := .str "A\nB\n\nC",
    SalaryMin := .str "50000", SalaryMax := .str "90000",
    SalaryCurrency := .str "USD", PostedDate := .str "2024-03-01",
    ApplicationUrl := .str "https://example.com/apply", CompanyLogo := .absent }

/-- The sample row with its ID cell missing. -/
def rowMissingId : RawJobData := { sampleRow with ID := .absent }

/-- The sample row with the numeric value 0 in its ID cell. -/
def rowZeroId : RawJobData := { sampleRow with ID := .num 0 }

/-- The sample row with its Location cell missing. -/
def rowNoLocation : RawJobData := { sampleRow with Location := .absent }

/-- The sample row with its Description cell missing (a row whose coercion
throws). -/
def rowThrowing : RawJobData := { sampleRow with Description := .absent }

/-- The sample row with its SalaryMin cell missing. -/
def rowNoSalaryMin : RawJobData := { sampleRow with SalaryMin := .absent }

/-- The sample row with whitespace-only Title and Company. -/
def rowWhitespaceTitle : RawJobData :=
  { sampleRow with Title := .str " ", Company := .str "  " }

/-- The sample row with the month-precision ISO date `2024-03` as its
PostedDate. -/
def rowMonthOnlyDate : RawJobData := { sampleRow with PostedDate := .str "2024-03" }

/-- The sample row with the out-of-enum text `INVALID_TYPE` in its Type
cell. -/
def rowInvalidType : RawJobData := { sampleRow with «Type» := .str "INVALID_TYPE" }

/-- C1: a RawRow in which any of the ID, Title, or Company cells is missing,
or coerces to the empty text, is rejected by `validateAndParseJob`: the
result is `none` and no `Job` record is constructed from the row. -/
theorem required_missing_or_empty_rejected (today : String) (row : RawJobData)
    (h : missingOrEmptyText row.ID = true ∨ missingOrEmptyText row.Title = true ∨
      missingOrEmptyText row.Company = true) :
    validateAndParseJob today row = none := by
  apply validateAndParseJob_none_of_check
  rcases h with h | h | h
  · exact Or.inl (missingOrEmptyText_not_truthy _ h)
  · exact Or.inr (Or.inl (missingOrEmptyText_not_truthy _ h))
  · exact Or.inr (Or.inr (missingOrEmptyText_not_truthy _ h))

/-- Witness for C1: a concrete row with a missing ID cell is rejected. -/
theorem required_missing_or_empty_rejected_witness :
    validateAndParseJob "2026-10-12" rowMissingId = none :=
  required_missing_or_empty_rejected "2026-10-12" rowMissingId (Or.inl (by rfl))

/-- C2 counterexample: "present and non-empty id/title/company produce
exactly one Job" fails twice on the code.  A numeric 0 in the ID cell
coerces to the non-empty text "0" yet the row is rejected (the check tests
truthiness), and a row with valid ID/Title/Company but a missing Location
cell is rejected because `row.Location.toString()` throws. -/
theorem present_nonempty_insufficient_cex :
    cellToString rowZeroId.ID = "0" ∧ cellToString rowZeroId.ID ≠ "" ∧
    validateAndParseJob "2026-10-12" rowZeroId = none ∧
    rowNoLocation.ID = .str "1" ∧ rowNoLocation.Title = .str "Engineer" ∧
    rowNoLocation.Company = .str "Acme" ∧
    validateAndParseJob "2026-10-12" rowNoLocation = none := by
  refine ⟨rfl, by decide, by rfl, rfl, rfl, rfl, by rfl⟩

/-- C2 (amended): for a RawRow whose ID, Title and Company cells are truthy
(present and neither the empty string nor the number 0) and whose Location,
Description, Requirements, SalaryMin and SalaryMax cells are present, the
Validator produces exactly one Job, whose id, title and company equal the
string-coerced input cells. -/
theorem truthy_present_yields_job (today : String) (row : RawJobData)
    (hID : truthy row.ID = true) (hTitle : truthy row.Title = true)
    (hCompany : truthy row.Company = true)
    (hLoc : row.Location ≠ .absent) (hDesc : row.Description ≠ .absent)
    (hReq : row.Requirements ≠ .absent) (hMin : row.SalaryMin ≠ .absent)
    (hMax : row.SalaryMax ≠ .absent) :
    ∃ job, validateAndParseJob today row = some job ∧
      job.id = cellToString row.ID ∧ job.title = cellToString row.Title ∧
      job.company = cellToString row.Company :=
  ⟨mkJob today row,
    validateAndParseJob_eq_mkJob today row hID hTitle hCompany hLoc hDesc hReq hMin hMax,
    rfl, rfl, rfl⟩

/-- Witness for amended C2 at the sample row. -/
theorem truthy_present_yields_job_witness :
    ∃ job, validateAndParseJob "2026-10-12" sampleRow = some job ∧
      job.id = "1" ∧ job.title = "Engineer" ∧ job.company = "Acme" :=
  truthy_present_yields_job "2026-10-12" sampleRow (by rfl) (by rfl) (by rfl)
    (by decide) (by decide) (by decide) (by decide) (by decide)

/-- C3: an exception thrown during coercion of one row (its body evaluating
to `Except.error`) is caught and converted to the rejection `none` for that
row only; mapping the validator with rejection-filtering over a batch
containing that row processes every other row exactly as it would without
it.  (The validator is total — `Option Job`-valued — by construction.) -/
theorem exception_isolated_to_row (today : String) (row : RawJobData)
    (pre post : List RawJobData)
    (h : validateAndParseJobBody today row = .error ()) :
    validateAndParseJob today row = none ∧
    (pre ++ row :: post).filterMap (validateAndParseJob today) =
      pre.filterMap (validateAndParseJob today) ++
        post.filterMap (validateAndParseJob today) := by
  have hnone : validateAndParseJob today row = none := by
    unfold validateAndParseJob
    rw [h]
  refine ⟨hnone, ?_⟩
  rw [List.filterMap_append, List.filterMap_cons, hnone]

/-- Witness for C3: a row whose Description coercion throws is dropped and
its neighbours in the batch are parsed exactly as without it. -/
theorem exception_isolated_to_row_witness :
    validateAndParseJob "2026-10-12" rowThrowing = none ∧
    ([sampleRow] ++ rowThrowing :: [rowWhitespaceTitle]).filterMap
        (validateAndParseJob "2026-10-12") =
      [sampleRow].filterMap (validateAndParseJob "2026-10-12") ++
        [rowWhitespaceTitle].filterMap (validateAndParseJob "2026-10-12") :=
  exception_isolated_to_row "2026-10-12" rowThrowing [sampleRow] [rowWhitespaceTitle]
    (by rfl)

/-- C4: the ingestion orchestration fails (producing no Jobs) exactly when
the decode step failed, the workbook has zero sheets, or zero rows of the
first sheet survive validation, each surfacing its own error; otherwise it
returns the validated jobs of the first sheet's rows, rejections filtered
out, in source-row order (`List.filterMap` keeps the surviving rows in their
original order). -/
theorem useJobsIngest_characterization (today : String) (o : FetchOutcome)
    (jobs : List Job) :
    (useJobsIngest today o = .ok jobs ↔
      ∃ sheets, o = .decoded sheets ∧ sheets ≠ [] ∧
        jobs = (firstSheetRows sheets).filterMap (validateAndParseJob today) ∧
        jobs ≠ []) ∧
    (useJobsIngest today o = .error .decodeError ↔ o = .decodeFailed) ∧
    (useJobsIngest today o = .error .emptyWorkbook ↔ o = .decoded []) ∧
    (useJobsIngest today o = .error .noValidRows ↔
      ∃ sheets, o = .decoded sheets ∧ sheets ≠ [] ∧
        (firstSheetRows sheets).filterMap (validateAndParseJob today) = []) := by
  cases o with
  | decodeFailed => simp [useJobsIngest]
  | decoded sheets =>
    by_cases hs : sheets = []
    · subst hs
      simp [useJobsIngest]
    · by_cases hp : (firstSheetRows sheets).filterMap (validateAndParseJob today) = []
      · simp [useJobsIngest, List.length_eq_zero, hs, hp]
        exact List.filterMap_eq_nil_iff.mp hp
      · simp [useJobsIngest, List.length_eq_zero, hs, hp, eq_comm]
        constructor
        · intro hj hjn
          exact hp (by rw [← hj]; exact hjn)
        · simpa [List.filterMap_eq_nil_iff] using hp

/-- The sample row with the claim's salary examples: SalaryMin "abc",
SalaryMax "". -/
def rowSalaryAbc : RawJobData :=
  { sampleRow with SalaryMin := .str "abc", SalaryMax := .str "" }

/-- The sample row with the unparseable PostedDate "not-a-date". -/
def rowBadDate : RawJobData := { sampleRow with PostedDate := .str "not-a-date" }

/-- `jsOrDefault` in closed form: the default applies exactly when the cell
is absent or coerces to the empty string. -/
theorem jsOrDefault_eq (c : Cell) (d : String) :
    jsOrDefault c d =
      if c = Cell.absent ∨ cellToString c = "" then d else cellToString c := by
  cases c with
  | absent => simp [jsOrDefault]
  | str s => simp [jsOrDefault, cellToString]
  | num n => simp [jsOrDefault, cellToString]

/-- C5 counterexample: a row accepted by the required-field check whose
SalaryMin cell is missing does not get salary.min defaulted to 0 — the
coercion `row.SalaryMin.toString()` throws and the whole row is rejected,
so no Job is produced at all. -/
theorem missing_salary_rejects_cex :
    truthy rowNoSalaryMin.ID = true ∧ truthy rowNoSalaryMin.Title = true ∧
    truthy rowNoSalaryMin.Company = true ∧ rowNoSalaryMin.SalaryMin = Cell.absent ∧
    validateAndParseJob "2026-10-12" rowNoSalaryMin = none :=
  ⟨rfl, rfl, rfl, rfl, by rfl⟩

/-- C5 (amended): for every row that yields a Job, salary.min and salary.max
are the base-10 `parseInt` of the coerced cell text, with a non-numeric or
unparseable value (including the empty string) yielding 0, and a missing
SalaryCurrency yielding "USD"; in particular "abc" and "" coerce to 0 and
"50000" to the integer 50000.  A missing SalaryMin or SalaryMax cell,
however, causes the row to be rejected (the coercion throws) rather than
defaulting that component to 0. -/
theorem salary_coercion_amended (today : String) (row : RawJobData) (job : Job)
    (h : validateAndParseJob today row = some job) :
    job.salary.min = parseIntOrZero (cellToString row.SalaryMin) ∧
    job.salary.max = parseIntOrZero (cellToString row.SalaryMax) ∧
    row.SalaryMin ≠ Cell.absent ∧ row.SalaryMax ≠ Cell.absent ∧
    (row.SalaryCurrency = Cell.absent → job.salary.currency = "USD") ∧
    parseIntOrZero "abc" = 0 ∧ parseIntOrZero "" = 0 ∧
    parseIntOrZero "50000" = 50000 := by
  obtain ⟨-, -, -, -, -, -, hMin, hMax, hj⟩ := validateAndParseJob_some_inv today row job h
  subst hj
  refine ⟨rfl, rfl, hMin, hMax, ?_, by decide, by decide, by decide⟩
  intro hc
  simp [mkJob, jsOrDefault, hc]

/-- Witness for amended C5 at the row with SalaryMin "abc" and SalaryMax "". -/
theorem salary_coercion_amended_witness :
    (mkJob "2026-10-12" rowSalaryAbc).salary.min = 0 ∧
    (mkJob "2026-10-12" rowSalaryAbc).salary.max = 0 ∧
    rowSalaryAbc.SalaryMin ≠ Cell.absent ∧ rowSalaryAbc.SalaryMax ≠ Cell.absent ∧
    (rowSalaryAbc.SalaryCurrency = Cell.absent →
      (mkJob "2026-10-12" rowSalaryAbc).salary.currency = "USD") ∧
    parseIntOrZero "abc" = 0 ∧ parseIntOrZero "" = 0 ∧
    parseIntOrZero "50000" = 50000 :=
  salary_coercion_amended "2026-10-12" rowSalaryAbc (mkJob "2026-10-12" rowSalaryAbc)
    (by rfl)

/-- C6: for every row that yields a Job, a PostedDate cell whose text parses
as a valid calendar date passes into the Job verbatim, and a missing or
unparseable PostedDate is replaced by the current date at validation time
(the parameter `today`, standing for the first 10 characters of
`new Date().toISOString()`, which is always of YYYY-MM-DD form — hence the
hypothesis on it). -/
theorem postedDate_passthrough_or_today (today : String) (row : RawJobData)
    (job : Job) (htoday : isYYYYMMDD today = true)
    (h : validateAndParseJob today row = some job) :
    (postedDateValid row.PostedDate = true →
      job.postedDate = cellToString row.PostedDate) ∧
    (postedDateValid row.PostedDate = false →
      job.postedDate = today ∧ isYYYYMMDD job.postedDate = true) := by
  obtain ⟨-, -, -, -, -, -, -, -, hj⟩ := validateAndParseJob_some_inv today row job h
  subst hj
  constructor
  · intro hv; simp [mkJob, hv]
  · intro hv; simp [mkJob, hv, htoday]

/-- Witness for C6 at the row whose PostedDate is "not-a-date": the fallback
branch fires and yields today's date. -/
theorem postedDate_passthrough_or_today_witness :
    (postedDateValid rowBadDate.PostedDate = true →
      (mkJob "2026-10-12" rowBadDate).postedDate = "not-a-date") ∧
    (postedDateValid rowBadDate.PostedDate = false →
      (mkJob "2026-10-12" rowBadDate).postedDate = "2026-10-12" ∧
      isYYYYMMDD (mkJob "2026-10-12" rowBadDate).postedDate = true) :=
  postedDate_passthrough_or_today "2026-10-12" rowBadDate
    (mkJob "2026-10-12" rowBadDate) (by rfl) (by rfl)

/-- C7 counterexample: a Type cell holding "INVALID_TYPE" — not one of the
four enum values — is not defaulted to FULL_TIME: it passes into the Job
verbatim. -/
theorem invalid_type_passes_verbatim_cex :
    (validateAndParseJob "2026-10-12" rowInvalidType).map Job.type =
      some "INVALID_TYPE" ∧
    "INVALID_TYPE" ≠ "FULL_TIME" :=
  ⟨by rfl, by decide⟩

/-- C7 (amended): the type field defaults to FULL_TIME exactly when the Type
cell is absent or coerces to the empty string; any other value — recognized
enum member or not — passes through verbatim, unvalidated. -/
theorem type_default_only_when_absent_or_empty (today : String) (row : RawJobData)
    (job : Job) (h : validateAndParseJob today row = some job) :
    (row.«Type» = Cell.absent ∨ cellToString row.«Type» = "" →
      job.type = "FULL_TIME") ∧
    (row.«Type» ≠ Cell.absent → cellToString row.«Type» ≠ "" →
      job.type = cellToString row.«Type») := by
  obtain ⟨-, -, -, -, -, -, -, -, hj⟩ := validateAndParseJob_some_inv today row job h
  subst hj
  have hty : (mkJob today row).type = jsOrDefault row.«Type» "FULL_TIME" := rfl
  rw [hty, jsOrDefault_eq]
  constructor
  · intro hc; simp [hc]
  · intro h1 h2; simp [h1, h2]

/-- Witness for amended C7 at the row whose Type cell is "INVALID_TYPE". -/
theorem type_default_only_when_absent_or_empty_witness :
    (rowInvalidType.«Type» = Cell.absent ∨ cellToString rowInvalidType.«Type» = "" →
      (mkJob "2026-10-12" rowInvalidType).type = "FULL_TIME") ∧
    (rowInvalidType.«Type» ≠ Cell.absent → cellToString rowInvalidType.«Type» ≠ "" →
      (mkJob "2026-10-12" rowInvalidType).type = "INVALID_TYPE") :=
  type_default_only_when_absent_or_empty "2026-10-12" rowInvalidType
    (mkJob "2026-10-12" rowInvalidType) (by rfl)

/-- C8: for every row that yields a Job, the requirements field is the
Requirements text split on newline characters with the empty segments
discarded, order preserved (`List.filter` keeps the remaining segments in
order); in particular "A\nB\n\nC" yields exactly ["A", "B", "C"]. -/
theorem requirements_split_drops_empty (today : String) (row : RawJobData)
    (job : Job) (h : validateAndParseJob today row = some job) :
    job.requirements =
      (jsSplit '\n' (cellToString row.Requirements)).filter (fun s => s != "") ∧
    (jsSplit '\n' "A\nB\n\nC").filter (fun s => s != "") = ["A", "B", "C"] := by
  obtain ⟨-, -, -, -, -, -, -, -, hj⟩ := validateAndParseJob_some_inv today row job h
  subst hj
  exact ⟨rfl, by rfl⟩

/-- Witness for C8 at the sample row, whose Requirements text is
"A\nB\n\nC". -/
theorem requirements_split_drops_empty_witness :
    (mkJob "2026-10-12" sampleRow).requirements = ["A", "B", "C"] ∧
    (jsSplit '\n' "A\nB\n\nC").filter (fun s => s != "") = ["A", "B", "C"] :=
  requirements_split_drops_empty "2026-10-12" sampleRow
    (mkJob "2026-10-12" sampleRow) (by rfl)

/-- C9 counterexample: the month-precision ISO string "2024-03" parses as a
valid date, so it passes into the produced Job verbatim — a postedDate that
is not of the form YYYY-MM-DD. -/
theorem postedDate_not_yyyymmdd_cex :
    (validateAndParseJob "2026-10-12" rowMonthOnlyDate).map Job.postedDate =
      some "2024-03" ∧
    isYYYYMMDD "2024-03" = false :=
  ⟨by rfl, by rfl⟩

/-- C9 (amended): every produced Job's postedDate is either the PostedDate
cell's text verbatim (kept whenever it parses as a valid date, whatever its
shape) or the current date `today`; it is of the form YYYY-MM-DD only in the
fallback case or when the input already had that shape. -/
theorem postedDate_verbatim_or_today (today : String) (row : RawJobData)
    (job : Job) (h : validateAndParseJob today row = some job) :
    job.postedDate = cellToString row.PostedDate ∨ job.postedDate = today := by
  obtain ⟨-, -, -, -, -, -, -, -, hj⟩ := validateAndParseJob_some_inv today row job h
  subst hj
  by_cases hv : postedDateValid row.PostedDate = true
  · left; simp [mkJob, hv]
  · right
    rw [Bool.not_eq_true] at hv
    simp [mkJob, hv]

/-- Witness for amended C9 at the row with PostedDate "2024-03". -/
theorem postedDate_verbatim_or_today_witness :
    (mkJob "2026-10-12" rowMonthOnlyDate).postedDate = "2024-03" ∨
    (mkJob "2026-10-12" rowMonthOnlyDate).postedDate = "2026-10-12" :=
  postedDate_verbatim_or_today "2026-10-12" rowMonthOnlyDate
    (mkJob "2026-10-12" rowMonthOnlyDate) (by rfl)

/-- C10: the required-field check tests JavaScript truthiness, not presence
or non-emptiness: a row whose ID cell holds the number 0 — present, and
coercing to the non-empty text "0" — is rejected, while whitespace-only
Title and Company (truthy non-empty strings) are accepted. -/
theorem truthiness_not_presence_check :
    cellToString rowZeroId.ID = "0" ∧ cellToString rowZeroId.ID ≠ "" ∧
    validateAndParseJob "2026-10-12" rowZeroId = none ∧
    rowWhitespaceTitle.Title = .str " " ∧ rowWhitespaceTitle.Company = .str "  " ∧
    (validateAndParseJob "2026-10-12" rowWhitespaceTitle).isSome = true :=
  ⟨rfl, by decide, by rfl, rfl, rfl, by rfl⟩
